import Mathlib

/-!
# Provider registry (`extensions/provisioning/providers.go`)

A shallow embedding of the two lookup functions `CreateProvider` and
`CreateRKE1Provider`.

* A Go `panic(msg)` is `Except.error msg`; a normal `return v` is `Except.ok v`.
* The expression-less `switch { case c₁: … case c₂: … default: … }` is the
  `if c₁ then … else if c₂ then … else …` chain in the source's order.
* The imported packages (`provisioninginput`, `machinepools`, the cloud
  credential packages and the RKE1 node template packages) are not part of this
  file: their types are the fields of `Types`, and the constants and functions
  the source reads from them are the fields of `Env`.
* A field of Go function type may be `nil`; such a field is an `Option`, and a
  reference to a declared function is `some f`.
-/

namespace Provisioning

/-- The types the source imports: `provisioninginput.ProviderName`,
`machinepools.Roles`, `rancher.Client`, `cloudcredentials.CloudCredential`,
`unstructured.Unstructured`, `nodetemplates.NodeTemplate` and Go's `error`. -/
structure Types where
  ProviderName : Type
  Roles : Type
  Client : Type
  CloudCredential : Type
  Unstructured : Type
  NodeTemplate : Type
  Error : Type

/-- Go: `type CloudCredFunc func(rancherClient *rancher.Client)
(*cloudcredentials.CloudCredential, error)`. -/
def CloudCredFunc (T : Types) : Type :=
  Option T.Client → Option T.CloudCredential × Option T.Error

/-- Go: `type MachinePoolFunc func(generatedPoolName, namespace string)
[]unstructured.Unstructured`. -/
def MachinePoolFunc (T : Types) : Type :=
  String → String → List T.Unstructured

/-- Go: `type NodeTemplateFunc func(rancherClient *rancher.Client)
(*nodetemplates.NodeTemplate, error)`. -/
def NodeTemplateFunc (T : Types) : Type :=
  Option T.Client → Option T.NodeTemplate × Option T.Error

/-- Go: `type Provider struct`. The two function-typed fields can hold `nil`. -/
structure Provider (T : Types) where
  Name : T.ProviderName
  MachineConfigPoolResourceSteveType : String
  MachinePoolFunc : Option (MachinePoolFunc T)
  CloudCredFunc : Option (CloudCredFunc T)
  Roles : List T.Roles

/-- Go: `type RKE1Provider struct`. -/
structure RKE1Provider (T : Types) where
  Name : T.ProviderName
  NodeTemplateFunc : Option (NodeTemplateFunc T)

/-- Everything `providers.go` reads from the packages it imports. Each field
carries the name of the Go identifier it stands for; `ProviderName_String` is
the method `ProviderName.String()`, and a `GetXMachineRoles` field is the value
of the call `machinepools.GetXMachineRoles()`. -/
structure Env (T : Types) where
  ProviderName_String : T.ProviderName → String
  -- package provisioninginput
  AWSProviderName : T.ProviderName
  AzureProviderName : T.ProviderName
  DOProviderName : T.ProviderName
  LinodeProviderName : T.ProviderName
  HarvesterProviderName : T.ProviderName
  VsphereProviderName : T.ProviderName
  AliyunProviderName : T.ProviderName
  -- package machinepools: pool type constants
  AWSPoolType : String
  AzurePoolType : String
  DOPoolType : String
  LinodePoolType : String
  HarvesterPoolType : String
  VmwarevsphereType : String
  ECSPoolType : String
  -- package machinepools: machine config constructors
  NewAWSMachineConfig : MachinePoolFunc T
  NewAzureMachineConfig : MachinePoolFunc T
  NewDigitalOceanMachineConfig : MachinePoolFunc T
  NewLinodeMachineConfig : MachinePoolFunc T
  NewHarvesterMachineConfig : MachinePoolFunc T
  NewVSphereMachineConfig : MachinePoolFunc T
  NewECSMachineConfig : MachinePoolFunc T
  -- packages cloudcredentials/*
  CreateAWSCloudCredentials : CloudCredFunc T
  CreateAzureCloudCredentials : CloudCredFunc T
  CreateDigitalOceanCloudCredentials : CloudCredFunc T
  CreateLinodeCloudCredentials : CloudCredFunc T
  CreateHarvesterCloudCredentials : CloudCredFunc T
  CreateVsphereCloudCredentials : CloudCredFunc T
  CreateECSCloudCredentials : CloudCredFunc T
  -- package machinepools: role lists
  GetAWSMachineRoles : List T.Roles
  GetAzureMachineRoles : List T.Roles
  GetDOMachineRoles : List T.Roles
  GetLinodeMachineRoles : List T.Roles
  GetHarvesterMachineRoles : List T.Roles
  GetVsphereMachineRoles : List T.Roles
  GetECSMachineRoles : List T.Roles
  -- packages rke1/nodetemplates/*
  CreateAWSNodeTemplate : NodeTemplateFunc T
  CreateAzureNodeTemplate : NodeTemplateFunc T
  CreateHarvesterNodeTemplate : NodeTemplateFunc T
  CreateLinodeNodeTemplate : NodeTemplateFunc T
  CreateVSphereNodeTemplate : NodeTemplateFunc T
  CreateAliyunECSNodeTemplate : NodeTemplateFunc T

variable {T : Types}

/-- Go: `func CreateProvider(name string) Provider`. -/
def CreateProvider (w : Env T) (name : String) : Except String (Provider T) :=
  if name = w.ProviderName_String w.AWSProviderName then
    .ok
      { Name := w.AWSProviderName
        MachineConfigPoolResourceSteveType := w.AWSPoolType
        MachinePoolFunc := some w.NewAWSMachineConfig
        CloudCredFunc := some w.CreateAWSCloudCredentials
        Roles := w.GetAWSMachineRoles }
  else if name = w.ProviderName_String w.AzureProviderName then
    .ok
      { Name := w.AzureProviderName
        MachineConfigPoolResourceSteveType := w.AzurePoolType
        MachinePoolFunc := some w.NewAzureMachineConfig
        CloudCredFunc := some w.CreateAzureCloudCredentials
        Roles := w.GetAzureMachineRoles }
  else if name = w.ProviderName_String w.DOProviderName then
    .ok
      { Name := w.DOProviderName
        MachineConfigPoolResourceSteveType := w.DOPoolType
        MachinePoolFunc := some w.NewDigitalOceanMachineConfig
        CloudCredFunc := some w.CreateDigitalOceanCloudCredentials
        Roles := w.GetDOMachineRoles }
  else if name = w.ProviderName_String w.LinodeProviderName then
    .ok
      { Name := w.LinodeProviderName
        MachineConfigPoolResourceSteveType := w.LinodePoolType
        MachinePoolFunc := some w.NewLinodeMachineConfig
        CloudCredFunc := some w.CreateLinodeCloudCredentials
        Roles := w.GetLinodeMachineRoles }
  else if name = w.ProviderName_String w.HarvesterProviderName then
    .ok
      { Name := w.HarvesterProviderName
        MachineConfigPoolResourceSteveType := w.HarvesterPoolType
        MachinePoolFunc := some w.NewHarvesterMachineConfig
        CloudCredFunc := some w.CreateHarvesterCloudCredentials
        Roles := w.GetHarvesterMachineRoles }
  else if name = w.ProviderName_String w.VsphereProviderName then
    .ok
      { Name := w.VsphereProviderName
        MachineConfigPoolResourceSteveType := w.VmwarevsphereType
        MachinePoolFunc := some w.NewVSphereMachineConfig
        CloudCredFunc := some w.CreateVsphereCloudCredentials
        Roles := w.GetVsphereMachineRoles }
  else if name = w.ProviderName_String w.AliyunProviderName then
    .ok
      { Name := w.AliyunProviderName
        MachineConfigPoolResourceSteveType := w.ECSPoolType
        MachinePoolFunc := some w.NewECSMachineConfig
        CloudCredFunc := some w.CreateECSCloudCredentials
        Roles := w.GetECSMachineRoles }
  else
    .error ("Provider:" ++ name ++ " not found")

/-- Go: `func CreateRKE1Provider(name string) RKE1Provider`. -/
def CreateRKE1Provider (w : Env T) (name : String) : Except String (RKE1Provider T) :=
  if name = w.ProviderName_String w.AWSProviderName then
    .ok { Name := w.AWSProviderName, NodeTemplateFunc := some w.CreateAWSNodeTemplate }
  else if name = w.ProviderName_String w.AzureProviderName then
    .ok { Name := w.AzureProviderName, NodeTemplateFunc := some w.CreateAzureNodeTemplate }
  else if name = w.ProviderName_String w.HarvesterProviderName then
    .ok { Name := w.HarvesterProviderName, NodeTemplateFunc := some w.CreateHarvesterNodeTemplate }
  else if name = w.ProviderName_String w.LinodeProviderName then
    .ok { Name := w.LinodeProviderName, NodeTemplateFunc := some w.CreateLinodeNodeTemplate }
  else if name = w.ProviderName_String w.VsphereProviderName then
    .ok { Name := w.VsphereProviderName, NodeTemplateFunc := some w.CreateVSphereNodeTemplate }
  else if name = w.ProviderName_String w.AliyunProviderName then
    .ok { Name := w.AliyunProviderName, NodeTemplateFunc := some w.CreateAliyunECSNodeTemplate }
  else
    .error ("RKE1Provider:" ++ name ++ " not found")

/-! ## The supported sets and the table view of the two registries -/

/-- The provider constants compared by the cases of `CreateProvider`, in the
order of the cases. -/
def providerNames (w : Env T) : List T.ProviderName :=
  [w.AWSProviderName, w.AzureProviderName, w.DOProviderName, w.LinodeProviderName,
   w.HarvesterProviderName, w.VsphereProviderName, w.AliyunProviderName]

/-- The provider constants compared by the cases of `CreateRKE1Provider`, in
the order of the cases. -/
def rke1ProviderNames (w : Env T) : List T.ProviderName :=
  [w.AWSProviderName, w.AzureProviderName, w.HarvesterProviderName, w.LinodeProviderName,
   w.VsphereProviderName, w.AliyunProviderName]

/-- The canonical strings `p.String()` of the seven supported providers. -/
def canonicalNames (w : Env T) : List String :=
  (providerNames w).map w.ProviderName_String

/-- The canonical strings `p.String()` of the six providers of the legacy
registry. -/
def rke1CanonicalNames (w : Env T) : List String :=
  (rke1ProviderNames w).map w.ProviderName_String

/-- A table-driven lookup, as the spec's design notes describe it: the first
entry whose key equals `name` gives the bundle, and a name that is the key of
no entry is reported with the message `miss name`. -/
def tableLookup {β : Type} (miss : String → String) :
    List (String × β) → String → Except String β
  | [], name => .error (miss name)
  | (key, bundle) :: rest, name =>
      if name = key then .ok bundle else tableLookup miss rest name

/-- The name-to-bundle pairs of `CreateProvider`, one per case. -/
def providerTable (w : Env T) : List (String × Provider T) :=
  [(w.ProviderName_String w.AWSProviderName,
      ⟨w.AWSProviderName, w.AWSPoolType, some w.NewAWSMachineConfig,
        some w.CreateAWSCloudCredentials, w.GetAWSMachineRoles⟩),
   (w.ProviderName_String w.AzureProviderName,
      ⟨w.AzureProviderName, w.AzurePoolType, some w.NewAzureMachineConfig,
        some w.CreateAzureCloudCredentials, w.GetAzureMachineRoles⟩),
   (w.ProviderName_String w.DOProviderName,
      ⟨w.DOProviderName, w.DOPoolType, some w.NewDigitalOceanMachineConfig,
        some w.CreateDigitalOceanCloudCredentials, w.GetDOMachineRoles⟩),
   (w.ProviderName_String w.LinodeProviderName,
      ⟨w.LinodeProviderName, w.LinodePoolType, some w.NewLinodeMachineConfig,
        some w.CreateLinodeCloudCredentials, w.GetLinodeMachineRoles⟩),
   (w.ProviderName_String w.HarvesterProviderName,
      ⟨w.HarvesterProviderName, w.HarvesterPoolType, some w.NewHarvesterMachineConfig,
        some w.CreateHarvesterCloudCredentials, w.GetHarvesterMachineRoles⟩),
   (w.ProviderName_String w.VsphereProviderName,
      ⟨w.VsphereProviderName, w.VmwarevsphereType, some w.NewVSphereMachineConfig,
        some w.CreateVsphereCloudCredentials, w.GetVsphereMachineRoles⟩),
   (w.ProviderName_String w.AliyunProviderName,
      ⟨w.AliyunProviderName, w.ECSPoolType, some w.NewECSMachineConfig,
        some w.CreateECSCloudCredentials, w.GetECSMachineRoles⟩)]

/-- The name-to-bundle pairs of `CreateRKE1Provider`, one per case. -/
def rke1ProviderTable (w : Env T) : List (String × RKE1Provider T) :=
  [(w.ProviderName_String w.AWSProviderName,
      ⟨w.AWSProviderName, some w.CreateAWSNodeTemplate⟩),
   (w.ProviderName_String w.AzureProviderName,
      ⟨w.AzureProviderName, some w.CreateAzureNodeTemplate⟩),
   (w.ProviderName_String w.HarvesterProviderName,
      ⟨w.HarvesterProviderName, some w.CreateHarvesterNodeTemplate⟩),
   (w.ProviderName_String w.LinodeProviderName,
      ⟨w.LinodeProviderName, some w.CreateLinodeNodeTemplate⟩),
   (w.ProviderName_String w.VsphereProviderName,
      ⟨w.VsphereProviderName, some w.CreateVSphereNodeTemplate⟩),
   (w.ProviderName_String w.AliyunProviderName,
      ⟨w.AliyunProviderName, some w.CreateAliyunECSNodeTemplate⟩)]

/-- Case folding of a name: each upper-case letter `A`..`Z` becomes the
matching lower-case letter, every other character is kept. -/
def caseFold (s : String) : String :=
  ⟨s.data.map Char.toLower⟩

/-! ## A concrete instance, for evaluating the lookups on concrete names -/

/-- A role record with the three role flags named in the spec's glossary. -/
structure SampleRoles where
  ControlPlane : Bool
  Etcd : Bool
  Worker : Bool
  deriving DecidableEq

/-- A concrete choice of the imported types: provider names are strings. -/
def sampleTypes : Types where
  ProviderName := String
  Roles := SampleRoles
  Client := Unit
  CloudCredential := String
  Unstructured := String
  NodeTemplate := String
  Error := String

/-- A sample instance of the imported packages, used only to evaluate the
lookups on concrete names. The canonical names are lower-case provider names,
the pool types are resource type tokens, the constructors are stand-ins that
build or fetch nothing, and each role list contains a control-plane capable
role. -/
def sampleEnv : Env sampleTypes where
  ProviderName_String := fun p => p
  AWSProviderName := "aws"
  AzureProviderName := "azure"
  DOProviderName := "do"
  LinodeProviderName := "linode"
  HarvesterProviderName := "harvester"
  VsphereProviderName := "vsphere"
  AliyunProviderName := "aliyun"
  AWSPoolType := "provisioning.cattle.io.amazonec2config"
  AzurePoolType := "provisioning.cattle.io.azureconfig"
  DOPoolType := "provisioning.cattle.io.digitaloceanconfig"
  LinodePoolType := "provisioning.cattle.io.linodeconfig"
  HarvesterPoolType := "provisioning.cattle.io.harvesterconfig"
  VmwarevsphereType := "provisioning.cattle.io.vmwarevsphereconfig"
  ECSPoolType := "provisioning.cattle.io.aliyunecsconfig"
  NewAWSMachineConfig := fun pool _ => [pool ++ "-aws"]
  NewAzureMachineConfig := fun pool _ => [pool ++ "-azure"]
  NewDigitalOceanMachineConfig := fun pool _ => [pool ++ "-do"]
  NewLinodeMachineConfig := fun pool _ => [pool ++ "-linode"]
  NewHarvesterMachineConfig := fun pool _ => [pool ++ "-harvester"]
  NewVSphereMachineConfig := fun pool _ => [pool ++ "-vsphere"]
  NewECSMachineConfig := fun pool _ => [pool ++ "-aliyun"]
  CreateAWSCloudCredentials := fun _ => (some "aws-cred", none)
  CreateAzureCloudCredentials := fun _ => (some "azure-cred", none)
  CreateDigitalOceanCloudCredentials := fun _ => (some "do-cred", none)
  CreateLinodeCloudCredentials := fun _ => (some "linode-cred", none)
  CreateHarvesterCloudCredentials := fun _ => (some "harvester-cred", none)
  CreateVsphereCloudCredentials := fun _ => (some "vsphere-cred", none)
  CreateECSCloudCredentials := fun _ => (some "aliyun-cred", none)
  GetAWSMachineRoles := [⟨true, true, true⟩]
  GetAzureMachineRoles := [⟨true, true, true⟩]
  GetDOMachineRoles := [⟨true, true, true⟩]
  GetLinodeMachineRoles := [⟨true, true, true⟩]
  GetHarvesterMachineRoles := [⟨true, true, true⟩]
  GetVsphereMachineRoles := [⟨true, false, false⟩, ⟨false, true, false⟩, ⟨false, false, true⟩]
  GetECSMachineRoles := [⟨true, true, true⟩]
  CreateAWSNodeTemplate := fun _ => (some "aws-template", none)
  CreateAzureNodeTemplate := fun _ => (some "azure-template", none)
  CreateHarvesterNodeTemplate := fun _ => (some "harvester-template", none)
  CreateLinodeNodeTemplate := fun _ => (some "linode-template", none)
  CreateVSphereNodeTemplate := fun _ => (some "vsphere-template", none)
  CreateAliyunECSNodeTemplate := fun _ => (some "aliyun-template", none)

theorem tableLookup_cases {β : Type} (miss : String → String) (t : List (String × β))
    (name : String) :
    (∃ b, (name, b) ∈ t ∧ tableLookup miss t name = .ok b) ∨
      ((∀ e ∈ t, name ≠ e.1) ∧ tableLookup miss t name = .error (miss name)) := by
  induction t with
  | nil => right; simp [tableLookup]
  | cons e rest ih =>
    obtain ⟨key, bundle⟩ := e
    by_cases hk : name = key
    · left
      refine ⟨bundle, ?_, ?_⟩
      · simp [hk]
      · simp [tableLookup, hk]
    · rcases ih with ⟨b, hb, hr⟩ | ⟨hn, hr⟩
      · left
        exact ⟨b, List.mem_cons_of_mem _ hb, by simp [tableLookup, hk, hr]⟩
      · right
        refine ⟨?_, by simp [tableLookup, hk, hr]⟩
        intro e he
        rcases List.mem_cons.1 he with rfl | he
        · exact hk
        · exact hn e he

theorem tableLookup_of_mem {β : Type} (miss : String → String) {t : List (String × β)}
    (hnd : (t.map Prod.fst).Nodup) {key : String} {b : β} (hmem : (key, b) ∈ t) :
    tableLookup miss t key = .ok b := by
  induction t with
  | nil => simp at hmem
  | cons e rest ih =>
    obtain ⟨k, v⟩ := e
    simp only [List.map_cons, List.nodup_cons] at hnd
    rcases List.mem_cons.1 hmem with heq | hrest
    · cases heq
      simp [tableLookup]
    · have hne : key ≠ k := by
        rintro rfl
        exact hnd.1 (List.mem_map.2 ⟨(key, b), hrest, rfl⟩)
      simp [tableLookup, hne, ih hnd.2 hrest]

theorem tableLookup_perm {β : Type} (miss : String → String) {t t' : List (String × β)}
    (hnd : (t.map Prod.fst).Nodup) (hp : t'.Perm t) (name : String) :
    tableLookup miss t' name = tableLookup miss t name := by
  have hnd' : (t'.map Prod.fst).Nodup := ((hp.map Prod.fst).nodup_iff).2 hnd
  rcases tableLookup_cases miss t name with ⟨b, hb, hr⟩ | ⟨hn, hr⟩
  · rw [hr]
    exact tableLookup_of_mem miss hnd' (hp.mem_iff.2 hb)
  · rw [hr]
    rcases tableLookup_cases miss t' name with ⟨b, hb, _⟩ | ⟨_, hr'⟩
    · exact absurd rfl (hn _ (hp.mem_iff.1 hb))
    · exact hr'

theorem CreateProvider_eq_tableLookup (w : Env T) (name : String) :
    CreateProvider w name =
      tableLookup (fun n => "Provider:" ++ n ++ " not found") (providerTable w) name := rfl

theorem CreateRKE1Provider_eq_tableLookup (w : Env T) (name : String) :
    CreateRKE1Provider w name =
      tableLookup (fun n => "RKE1Provider:" ++ n ++ " not found") (rke1ProviderTable w) name :=
  rfl

theorem providerTable_keys (w : Env T) :
    (providerTable w).map Prod.fst = canonicalNames w := rfl

theorem rke1ProviderTable_keys (w : Env T) :
    (rke1ProviderTable w).map Prod.fst = rke1CanonicalNames w := rfl

theorem rke1CanonicalNames_nodup (w : Env T) (h : (canonicalNames w).Nodup) :
    (rke1CanonicalNames w).Nodup := by
  simp only [canonicalNames, providerNames, rke1CanonicalNames, rke1ProviderNames,
    List.map_cons, List.map_nil, List.nodup_cons, List.mem_cons, List.mem_singleton,
    List.not_mem_nil, not_or, List.nodup_nil, or_false, not_false_eq_true] at h ⊢
  obtain ⟨⟨h1, -, h3, h4, h5, h6⟩, ⟨-, g2, g3, g4, g5⟩, -, ⟨e1, e2, e3⟩, ⟨d1, d2⟩, c1, -⟩ := h
  exact ⟨⟨h1, h4, h3, h5, h6⟩, ⟨g3, g2, g4, g5⟩, ⟨Ne.symm e1, d1, d2⟩, ⟨e2, e3⟩, c1,
    trivial, trivial⟩

/-- Every entry of the provider table pairs a supported provider's canonical
string with a bundle bearing that provider's name. -/
theorem providerTable_entry (w : Env T) {name : String} {p : Provider T}
    (h : (name, p) ∈ providerTable w) :
    p.Name ∈ providerNames w ∧ w.ProviderName_String p.Name = name := by
  simp only [providerTable, List.mem_cons, Prod.mk.injEq, List.mem_singleton,
    List.not_mem_nil, or_false] at h
  rcases h with h | h | h | h | h | h | h <;> obtain ⟨rfl, rfl⟩ := h <;>
    simp [providerNames]

theorem rke1ProviderTable_entry (w : Env T) {name : String} {r : RKE1Provider T}
    (h : (name, r) ∈ rke1ProviderTable w) :
    r.Name ∈ rke1ProviderNames w ∧ w.ProviderName_String r.Name = name := by
  simp only [rke1ProviderTable, List.mem_cons, Prod.mk.injEq, List.mem_singleton,
    List.not_mem_nil, or_false] at h
  rcases h with h | h | h | h | h | h <;> obtain ⟨rfl, rfl⟩ := h <;>
    simp [rke1ProviderNames]

/-! ## Lemmas on the panic messages -/

theorem message_inj (pre suf a b : String) (h : pre ++ a ++ suf = pre ++ b ++ suf) : a = b := by
  have hd := congrArg String.data h
  simp only [String.data_append] at hd
  exact String.ext (List.append_cancel_left (List.append_cancel_right hd))

theorem message_registry_ne (a b : String) :
    "Provider:" ++ a ++ " not found" ≠ "RKE1Provider:" ++ b ++ " not found" := by
  intro h
  have hd := congrArg String.data h
  simp only [String.data_append, List.append_assoc] at hd
  change 'P' :: _ = 'R' :: _ at hd
  exact absurd (List.cons.inj hd).1 (by decide)

theorem CreateProvider_cases (w : Env T) (name : String) :
    (∃ p, (name, p) ∈ providerTable w ∧ CreateProvider w name = .ok p) ∨
      ((∀ q ∈ providerNames w, name ≠ w.ProviderName_String q) ∧
        CreateProvider w name = .error ("Provider:" ++ name ++ " not found")) := by
  rw [CreateProvider_eq_tableLookup]
  rcases tableLookup_cases (fun n => "Provider:" ++ n ++ " not found") (providerTable w) name
    with h | ⟨hn, hr⟩
  · exact Or.inl h
  · refine Or.inr ⟨fun q hq heq => ?_, hr⟩
    have hk : name ∈ (providerTable w).map Prod.fst := by
      rw [providerTable_keys]
      exact heq ▸ List.mem_map_of_mem _ hq
    obtain ⟨e, he, hfst⟩ := List.mem_map.1 hk
    exact hn e he hfst.symm

theorem CreateRKE1Provider_cases (w : Env T) (name : String) :
    (∃ r, (name, r) ∈ rke1ProviderTable w ∧ CreateRKE1Provider w name = .ok r) ∨
      ((∀ q ∈ rke1ProviderNames w, name ≠ w.ProviderName_String q) ∧
        CreateRKE1Provider w name = .error ("RKE1Provider:" ++ name ++ " not found")) := by
  rw [CreateRKE1Provider_eq_tableLookup]
  rcases tableLookup_cases (fun n => "RKE1Provider:" ++ n ++ " not found")
    (rke1ProviderTable w) name with h | ⟨hn, hr⟩
  · exact Or.inl h
  · refine Or.inr ⟨fun q hq heq => ?_, hr⟩
    have hk : name ∈ (rke1ProviderTable w).map Prod.fst := by
      rw [rke1ProviderTable_keys]
      exact heq ▸ List.mem_map_of_mem _ hq
    obtain ⟨e, he, hfst⟩ := List.mem_map.1 hk
    exact hn e he hfst.symm

theorem rke1ProviderNames_subset (w : Env T) {q : T.ProviderName}
    (h : q ∈ rke1ProviderNames w) : q ∈ providerNames w := by
  simp only [rke1ProviderNames, providerNames, List.mem_cons, List.mem_singleton,
    List.not_mem_nil, or_false] at h ⊢
  tauto

/-- A lookup in the modern registry fails exactly on the names that are the
canonical string of no supported provider. -/
theorem CreateProvider_error_iff (w : Env T) (name : String) :
    (∃ msg, CreateProvider w name = .error msg) ↔
      ∀ q ∈ providerNames w, name ≠ w.ProviderName_String q := by
  constructor
  · rintro ⟨msg, hmsg⟩
    rcases CreateProvider_cases w name with ⟨p, hp, hr⟩ | ⟨hn, _⟩
    · rw [hr] at hmsg; cases hmsg
    · exact hn
  · intro hn
    rcases CreateProvider_cases w name with ⟨p, hp, _⟩ | ⟨_, hr⟩
    · exact absurd (providerTable_entry w hp).2.symm (hn _ (providerTable_entry w hp).1)
    · exact ⟨_, hr⟩

theorem CreateRKE1Provider_error_iff (w : Env T) (name : String) :
    (∃ msg, CreateRKE1Provider w name = .error msg) ↔
      ∀ q ∈ rke1ProviderNames w, name ≠ w.ProviderName_String q := by
  constructor
  · rintro ⟨msg, hmsg⟩
    rcases CreateRKE1Provider_cases w name with ⟨p, hp, hr⟩ | ⟨hn, _⟩
    · rw [hr] at hmsg; cases hmsg
    · exact hn
  · intro hn
    rcases CreateRKE1Provider_cases w name with ⟨p, hp, _⟩ | ⟨_, hr⟩
    · exact absurd (rke1ProviderTable_entry w hp).2.symm
        (hn _ (rke1ProviderTable_entry w hp).1)
    · exact ⟨_, hr⟩

/-! ## The modern registry resolves its seven providers -/

/-- C1: when the seven canonical strings are pairwise distinct, `CreateProvider`
applied to the canonical string of each supported provider returns (no panic)
the bundle whose `Name`, pool type, machine config constructor, cloud credential
constructor and role list are all that same provider's. -/
theorem CreateProvider_supported (w : Env T) (h : (canonicalNames w).Nodup) :
    CreateProvider w (w.ProviderName_String w.AWSProviderName) =
        .ok ⟨w.AWSProviderName, w.AWSPoolType, some w.NewAWSMachineConfig,
          some w.CreateAWSCloudCredentials, w.GetAWSMachineRoles⟩ ∧
    CreateProvider w (w.ProviderName_String w.AzureProviderName) =
        .ok ⟨w.AzureProviderName, w.AzurePoolType, some w.NewAzureMachineConfig,
          some w.CreateAzureCloudCredentials, w.GetAzureMachineRoles⟩ ∧
    CreateProvider w (w.ProviderName_String w.DOProviderName) =
        .ok ⟨w.DOProviderName, w.DOPoolType, some w.NewDigitalOceanMachineConfig,
          some w.CreateDigitalOceanCloudCredentials, w.GetDOMachineRoles⟩ ∧
    CreateProvider w (w.ProviderName_String w.LinodeProviderName) =
        .ok ⟨w.LinodeProviderName, w.LinodePoolType, some w.NewLinodeMachineConfig,
          some w.CreateLinodeCloudCredentials, w.GetLinodeMachineRoles⟩ ∧
    CreateProvider w (w.ProviderName_String w.HarvesterProviderName) =
        .ok ⟨w.HarvesterProviderName, w.HarvesterPoolType, some w.NewHarvesterMachineConfig,
          some w.CreateHarvesterCloudCredentials, w.GetHarvesterMachineRoles⟩ ∧
    CreateProvider w (w.ProviderName_String w.VsphereProviderName) =
        .ok ⟨w.VsphereProviderName, w.VmwarevsphereType, some w.NewVSphereMachineConfig,
          some w.CreateVsphereCloudCredentials, w.GetVsphereMachineRoles⟩ ∧
    CreateProvider w (w.ProviderName_String w.AliyunProviderName) =
        .ok ⟨w.AliyunProviderName, w.ECSPoolType, some w.NewECSMachineConfig,
          some w.CreateECSCloudCredentials, w.GetECSMachineRoles⟩ := by
  have hk : ((providerTable w).map Prod.fst).Nodup := by rwa [providerTable_keys]
  refine ⟨?_, ?_, ?_, ?_, ?_, ?_, ?_⟩ <;>
    · rw [CreateProvider_eq_tableLookup]
      exact tableLookup_of_mem _ hk (by simp [providerTable])

/-- Instance of C1 on the sample registry: its seven names are pairwise
distinct, and `"vsphere"` resolves to the vSphere bundle. -/
theorem CreateProvider_supported_witness :
    (canonicalNames sampleEnv).Nodup ∧
      CreateProvider sampleEnv "vsphere" =
        .ok ⟨"vsphere", "provisioning.cattle.io.vmwarevsphereconfig",
          some sampleEnv.NewVSphereMachineConfig, some sampleEnv.CreateVsphereCloudCredentials,
          [⟨true, false, false⟩, ⟨false, true, false⟩, ⟨false, false, true⟩]⟩ :=
  ⟨by decide, (CreateProvider_supported sampleEnv (by decide)).2.2.2.2.2.1⟩

/-! ## The legacy registry resolves its six providers -/

/-- C2: when the six canonical strings of the legacy registry are pairwise
distinct, `CreateRKE1Provider` applied to the canonical string of each of the six
returns (no panic) the bundle with that provider's `Name` and that provider's
node template constructor. -/
theorem CreateRKE1Provider_supported (w : Env T) (h : (rke1CanonicalNames w).Nodup) :
    CreateRKE1Provider w (w.ProviderName_String w.AWSProviderName) =
        .ok ⟨w.AWSProviderName, some w.CreateAWSNodeTemplate⟩ ∧
    CreateRKE1Provider w (w.ProviderName_String w.AzureProviderName) =
        .ok ⟨w.AzureProviderName, some w.CreateAzureNodeTemplate⟩ ∧
    CreateRKE1Provider w (w.ProviderName_String w.HarvesterProviderName) =
        .ok ⟨w.HarvesterProviderName, some w.CreateHarvesterNodeTemplate⟩ ∧
    CreateRKE1Provider w (w.ProviderName_String w.LinodeProviderName) =
        .ok ⟨w.LinodeProviderName, some w.CreateLinodeNodeTemplate⟩ ∧
    CreateRKE1Provider w (w.ProviderName_String w.VsphereProviderName) =
        .ok ⟨w.VsphereProviderName, some w.CreateVSphereNodeTemplate⟩ ∧
    CreateRKE1Provider w (w.ProviderName_String w.AliyunProviderName) =
        .ok ⟨w.AliyunProviderName, some w.CreateAliyunECSNodeTemplate⟩ := by
  have hk : ((rke1ProviderTable w).map Prod.fst).Nodup := by rwa [rke1ProviderTable_keys]
  refine ⟨?_, ?_, ?_, ?_, ?_, ?_⟩ <;>
    · rw [CreateRKE1Provider_eq_tableLookup]
      exact tableLookup_of_mem _ hk (by simp [rke1ProviderTable])

/-- Instance of C2 on the sample registry: `"linode"` resolves to the Linode
legacy bundle. -/
theorem CreateRKE1Provider_supported_witness :
    (rke1CanonicalNames sampleEnv).Nodup ∧
      CreateRKE1Provider sampleEnv "linode" =
        .ok ⟨"linode", some sampleEnv.CreateLinodeNodeTemplate⟩ :=
  ⟨by decide, (CreateRKE1Provider_supported sampleEnv (by decide)).2.2.2.1⟩

/-! ## Unknown names -/

/-- C3: `CreateProvider name` panics if and only if `name` is the canonical
string of none of the seven supported providers; a call that panics returns no
`Provider` at all; and `"not-a-real-provider"`, which is no provider's canonical
string, makes the call panic. -/
theorem CreateProvider_fails_iff_unknown (w : Env T) :
    (∀ name, (∃ msg, CreateProvider w name = .error msg) ↔
        ∀ q ∈ providerNames w, name ≠ w.ProviderName_String q) ∧
    (∀ name msg, CreateProvider w name = .error msg → ∀ p, CreateProvider w name ≠ .ok p) ∧
    ((∀ q ∈ providerNames w, "not-a-real-provider" ≠ w.ProviderName_String q) →
        ∃ msg, CreateProvider w "not-a-real-provider" = .error msg) := by
  refine ⟨CreateProvider_error_iff w, ?_, fun hn => (CreateProvider_error_iff w _).2 hn⟩
  intro name msg hmsg p hp
  rw [hmsg] at hp
  cases hp

/-- Instance of C3 on the sample registry: `"not-a-real-provider"` is none of
its canonical strings and the lookup panics. -/
theorem CreateProvider_fails_iff_unknown_witness :
    (∀ q ∈ providerNames sampleEnv,
        "not-a-real-provider" ≠ sampleEnv.ProviderName_String q) ∧
      ∃ msg, CreateProvider sampleEnv "not-a-real-provider" = .error msg :=
  ⟨by decide, (CreateProvider_fails_iff_unknown sampleEnv).2.2 (by decide)⟩

/-- C4: `CreateRKE1Provider name` panics exactly when `name` is the canonical
string of none of the six providers AWS, Azure, Harvester, Linode, vSphere,
Aliyun; and when the seven canonical strings are pairwise distinct it panics on
DigitalOcean's canonical string, which `CreateProvider` resolves to a bundle
named DigitalOcean. -/
theorem CreateRKE1Provider_fails_iff_unknown (w : Env T) :
    (∀ name, (∃ msg, CreateRKE1Provider w name = .error msg) ↔
        ∀ q ∈ rke1ProviderNames w, name ≠ w.ProviderName_String q) ∧
    ((canonicalNames w).Nodup →
      (∃ msg, CreateRKE1Provider w (w.ProviderName_String w.DOProviderName) = .error msg) ∧
      ∃ p, CreateProvider w (w.ProviderName_String w.DOProviderName) = .ok p ∧
        p.Name = w.DOProviderName) := by
  refine ⟨CreateRKE1Provider_error_iff w, fun h => ⟨?_, ?_⟩⟩
  · refine (CreateRKE1Provider_error_iff w _).2 ?_
    simp only [canonicalNames, providerNames, List.map_cons, List.map_nil, List.nodup_cons,
      List.mem_cons, List.mem_singleton, List.not_mem_nil, not_or, or_false] at h
    obtain ⟨⟨-, h2, -⟩, ⟨g1, -⟩, ⟨f1, f2, f3, f4⟩, -⟩ := h
    intro q hq
    simp only [rke1ProviderNames, List.mem_cons, List.mem_singleton, List.not_mem_nil,
      or_false] at hq
    rcases hq with rfl | rfl | rfl | rfl | rfl | rfl
    · exact Ne.symm h2
    · exact Ne.symm g1
    · exact f2
    · exact f1
    · exact f3
    · exact f4
  · have hk : ((providerTable w).map Prod.fst).Nodup := by rwa [providerTable_keys]
    refine ⟨⟨w.DOProviderName, w.DOPoolType, some w.NewDigitalOceanMachineConfig,
      some w.CreateDigitalOceanCloudCredentials, w.GetDOMachineRoles⟩, ?_, rfl⟩
    rw [CreateProvider_eq_tableLookup]
    exact tableLookup_of_mem _ hk (by simp [providerTable])

/-- Instance of C4 on the sample registry: `"do"` panics in the legacy registry
and resolves in the modern one. -/
theorem CreateRKE1Provider_fails_iff_unknown_witness :
    (canonicalNames sampleEnv).Nodup ∧
      (∃ msg, CreateRKE1Provider sampleEnv "do" = .error msg) ∧
      ∃ p, CreateProvider sampleEnv "do" = .ok p ∧ p.Name = "do" :=
  ⟨by decide, (CreateRKE1Provider_fails_iff_unknown sampleEnv).2 (by decide)⟩

/-! ## Case sensitivity -/

/-- C5: lookup is case-sensitive in both registries. Let `fold` be a case
folding under which no two different canonical strings of the supported
providers become equal. If `s` differs from a supported canonical string `c`
only in case (`s ≠ c` and `fold s = fold c`), then `CreateProvider s` and
`CreateRKE1Provider s` both panic with their not-found message. -/
theorem lookup_case_sensitive (w : Env T) (fold : String → String)
    (hfold : ∀ a ∈ canonicalNames w, ∀ b ∈ canonicalNames w, fold a = fold b → a = b)
    (s c : String) (hc : c ∈ canonicalNames w) (hne : s ≠ c) (hcase : fold s = fold c) :
    CreateProvider w s = .error ("Provider:" ++ s ++ " not found") ∧
      CreateRKE1Provider w s = .error ("RKE1Provider:" ++ s ++ " not found") := by
  have hunknown : ∀ q ∈ providerNames w, s ≠ w.ProviderName_String q := by
    intro q hq heq
    have hs : s ∈ canonicalNames w := heq ▸ List.mem_map_of_mem _ hq
    exact hne (hfold s hs c hc hcase)
  constructor
  · rcases CreateProvider_cases w s with ⟨p, hp, _⟩ | ⟨_, hr⟩
    · exact absurd (providerTable_entry w hp).2.symm
        (hunknown _ (providerTable_entry w hp).1)
    · exact hr
  · rcases CreateRKE1Provider_cases w s with ⟨r, hr, _⟩ | ⟨_, hr⟩
    · exact absurd (rke1ProviderTable_entry w hr).2.symm
        (hunknown _ (rke1ProviderNames_subset w (rke1ProviderTable_entry w hr).1))
    · exact hr

/-- Instance of C5 on the sample registry with `caseFold`: `"AWS"` differs from
`"aws"` only in case and is rejected by both registries. -/
theorem lookup_case_sensitive_witness :
    (∀ a ∈ canonicalNames sampleEnv, ∀ b ∈ canonicalNames sampleEnv,
        caseFold a = caseFold b → a = b) ∧
      "aws" ∈ canonicalNames sampleEnv ∧ "AWS" ≠ "aws" ∧ caseFold "AWS" = caseFold "aws" ∧
      CreateProvider sampleEnv "AWS" = .error "Provider:AWS not found" ∧
      CreateRKE1Provider sampleEnv "AWS" = .error "RKE1Provider:AWS not found" :=
  ⟨by decide, by decide, by decide, by decide,
    lookup_case_sensitive sampleEnv caseFold (by decide) "AWS" "aws" (by decide) (by decide)
      (by decide)⟩

/-! ## The fields of a returned bundle -/

/-- C8: on every unsupported name `CreateProvider` panics with exactly
`"Provider:" ++ name ++ " not found"` and `CreateRKE1Provider` with exactly
`"RKE1Provider:" ++ name ++ " not found"`; two names that produce the same
message in one registry are equal (the name is recoverable from the message);
and a message of the modern registry is never a message of the legacy one, in
particular not for the same name. -/
theorem panic_message_identifies (w : Env T) :
    (∀ name, (∀ q ∈ providerNames w, name ≠ w.ProviderName_String q) →
      CreateProvider w name = .error ("Provider:" ++ name ++ " not found")) ∧
    (∀ name, (∀ q ∈ rke1ProviderNames w, name ≠ w.ProviderName_String q) →
      CreateRKE1Provider w name = .error ("RKE1Provider:" ++ name ++ " not found")) ∧
    (∀ n₁ n₂ msg, CreateProvider w n₁ = .error msg → CreateProvider w n₂ = .error msg →
      n₁ = n₂) ∧
    (∀ n₁ n₂ msg, CreateRKE1Provider w n₁ = .error msg →
      CreateRKE1Provider w n₂ = .error msg → n₁ = n₂) ∧
    (∀ n₁ n₂ m₁ m₂, CreateProvider w n₁ = .error m₁ → CreateRKE1Provider w n₂ = .error m₂ →
      m₁ ≠ m₂) := by
  have hA : ∀ n msg, CreateProvider w n = .error msg →
      msg = "Provider:" ++ n ++ " not found" := by
    intro n msg h
    rcases CreateProvider_cases w n with ⟨p, _, hr⟩ | ⟨_, hr⟩
    · rw [hr] at h; cases h
    · rw [hr] at h; cases h; rfl
  have hB : ∀ n msg, CreateRKE1Provider w n = .error msg →
      msg = "RKE1Provider:" ++ n ++ " not found" := by
    intro n msg h
    rcases CreateRKE1Provider_cases w n with ⟨p, _, hr⟩ | ⟨_, hr⟩
    · rw [hr] at h; cases h
    · rw [hr] at h; cases h; rfl
  refine ⟨?_, ?_, ?_, ?_, ?_⟩
  · intro name hn
    obtain ⟨msg, hmsg⟩ := (CreateProvider_error_iff w name).2 hn
    rw [hmsg, hA name msg hmsg]
  · intro name hn
    obtain ⟨msg, hmsg⟩ := (CreateRKE1Provider_error_iff w name).2 hn
    rw [hmsg, hB name msg hmsg]
  · intro n₁ n₂ msg h₁ h₂
    exact message_inj _ _ _ _ ((hA n₁ msg h₁).symm.trans (hA n₂ msg h₂))
  · intro n₁ n₂ msg h₁ h₂
    exact message_inj _ _ _ _ ((hB n₁ msg h₁).symm.trans (hB n₂ msg h₂))
  · intro n₁ n₂ m₁ m₂ h₁ h₂ heq
    rw [hA n₁ m₁ h₁, hB n₂ m₂ h₂] at heq
    exact message_registry_ne _ _ heq

/-- Instance of C8 on the sample registry: the unsupported name `"google"`
yields the message `Provider:google not found`. -/
theorem panic_message_identifies_witness :
    (∀ q ∈ providerNames sampleEnv, "google" ≠ sampleEnv.ProviderName_String q) ∧
      CreateProvider sampleEnv "google" = .error "Provider:google not found" :=
  ⟨by decide, (panic_message_identifies sampleEnv).1 "google" (by decide)⟩

/-! ## The switch as a table lookup -/

/-- C9: when the canonical strings are pairwise distinct, at most one case of
each switch matches a given name, and each switch equals, on every name, the
table-driven lookup over its name-to-bundle pairs listed in any permuted order:
the same bundle on a hit and the same panic on a miss. -/
theorem switch_eq_tableLookup (w : Env T) (h : (canonicalNames w).Nodup) :
    (∀ name (i j : Fin (canonicalNames w).length),
      name = (canonicalNames w).get i → name = (canonicalNames w).get j → i = j) ∧
    (∀ name (i j : Fin (rke1CanonicalNames w).length),
      name = (rke1CanonicalNames w).get i → name = (rke1CanonicalNames w).get j → i = j) ∧
    (∀ t : List (String × Provider T), t.Perm (providerTable w) → ∀ name,
      tableLookup (fun n => "Provider:" ++ n ++ " not found") t name =
        CreateProvider w name) ∧
    (∀ t : List (String × RKE1Provider T), t.Perm (rke1ProviderTable w) → ∀ name,
      tableLookup (fun n => "RKE1Provider:" ++ n ++ " not found") t name =
        CreateRKE1Provider w name) := by
  have h' := rke1CanonicalNames_nodup w h
  refine ⟨?_, ?_, ?_, ?_⟩
  · intro name i j hi hj
    exact h.get_inj_iff.1 (hi.symm.trans hj)
  · intro name i j hi hj
    exact h'.get_inj_iff.1 (hi.symm.trans hj)
  · intro t ht name
    rw [CreateProvider_eq_tableLookup]
    exact tableLookup_perm _ (by rwa [providerTable_keys]) ht name
  · intro t ht name
    rw [CreateRKE1Provider_eq_tableLookup]
    exact tableLookup_perm _ (by rwa [rke1ProviderTable_keys]) ht name

/-- Instance of C9 on the sample registry: looking a name up in the reversed
table gives the result of the switch. -/
theorem switch_eq_tableLookup_witness :
    (canonicalNames sampleEnv).Nodup ∧
      ∀ name, tableLookup (fun n => "Provider:" ++ n ++ " not found")
        (providerTable sampleEnv).reverse name = CreateProvider sampleEnv name :=
  ⟨by decide,
    (switch_eq_tableLookup sampleEnv (by decide)).2.2.1 _ (List.reverse_perm _)⟩

/-! ## Name round trip -/

/-- C10: whenever `CreateProvider name` returns a bundle, the canonical string
of its `Name` is `name`, and likewise for `CreateRKE1Provider` (no distinctness
of canonical strings is needed); hence every name the legacy registry resolves
is resolved by the modern registry too, and when the canonical strings are
pairwise distinct both bundles carry the same `Name`. -/
theorem name_round_trip (w : Env T) :
    (∀ name p, CreateProvider w name = .ok p → w.ProviderName_String p.Name = name) ∧
    (∀ name r, CreateRKE1Provider w name = .ok r → w.ProviderName_String r.Name = name) ∧
    (∀ name r, CreateRKE1Provider w name = .ok r →
      ∃ p, CreateProvider w name = .ok p ∧ ((canonicalNames w).Nodup → p.Name = r.Name)) := by
  have hA : ∀ name p, CreateProvider w name = .ok p → (name, p) ∈ providerTable w := by
    intro name p h
    rcases CreateProvider_cases w name with ⟨p', hp', hr⟩ | ⟨_, hr⟩
    · rw [hr] at h; cases h; exact hp'
    · rw [hr] at h; cases h
  have hB : ∀ name r, CreateRKE1Provider w name = .ok r → (name, r) ∈ rke1ProviderTable w := by
    intro name r h
    rcases CreateRKE1Provider_cases w name with ⟨r', hr', hr⟩ | ⟨_, hr⟩
    · rw [hr] at h; cases h; exact hr'
    · rw [hr] at h; cases h
  refine ⟨fun name p h => (providerTable_entry w (hA name p h)).2,
    fun name r h => (rke1ProviderTable_entry w (hB name r h)).2, ?_⟩
  intro name r h
  obtain ⟨hrmem, hrstr⟩ := rke1ProviderTable_entry w (hB name r h)
  rcases CreateProvider_cases w name with ⟨p, hp, hr⟩ | ⟨hn, _⟩
  · refine ⟨p, hr, fun hnd => ?_⟩
    obtain ⟨hpmem, hpstr⟩ := providerTable_entry w hp
    exact List.inj_on_of_nodup_map hnd hpmem (rke1ProviderNames_subset w hrmem)
      (hpstr.trans hrstr.symm)
  · exact absurd hrstr.symm (hn _ (rke1ProviderNames_subset w hrmem))

/-- Instance of C10 on the sample registry: the bundle returned for `"aliyun"`
bears a name whose canonical string is `"aliyun"`. -/
theorem name_round_trip_witness :
    ∃ p, CreateProvider sampleEnv "aliyun" = .ok p ∧
      sampleEnv.ProviderName_String p.Name = "aliyun" :=
  ⟨_, rfl, (name_round_trip sampleEnv).1 "aliyun" _ rfl⟩

end Provisioning
